import Mathlib

/-!
Shallow embedding of `flutter/lib/ui/painting/multi_frame_codec.cc` and its
header `multi_frame_codec.h`: the per-frame decode/composite state machine of
`MultiFrameCodec::State::DecodeImage`, the frame-index advancement of
`MultiFrameCodec::State::OnGetImageAndInvokeCallback`, and the request entry
point `MultiFrameCodec::getNextFrame`.

Pixel buffers (`SkBitmap`) are modelled as finite grids of pixels (a list of
rows); `SkBitmap::writePixels` is a pointwise overlay and `SkBitmap::erase` a
pointwise fill of a rectangle.  The external `ImageGenerator` collaborator is
modelled as an oracle record of deterministic functions, and the per-request
environment (allocation success, weak-pointer liveness, materializer outcome)
as an explicit record, so each frame request is a pure step function on the
codec state.
-/

namespace MultiFrameCodecModel

/-- A pixel value (32-bit premultiplied color, abstracted as a number). -/
abbrev Pixel := Nat

/-- `SK_ColorTRANSPARENT`: the fully transparent color. -/
def SK_ColorTRANSPARENT : Pixel := 0

/-- `SkIRect`: an integer rectangle, half-open on the right and bottom. -/
structure SkIRect where
  left : Int
  top : Int
  right : Int
  bottom : Int
deriving DecidableEq

/-- Whether the point `(x, y)` lies inside the rectangle. -/
def SkIRect.containsPt (r : SkIRect) (x y : Nat) : Bool :=
  decide (r.left ≤ (x : Int)) && decide ((x : Int) < r.right) &&
    decide (r.top ≤ (y : Int)) && decide ((y : Int) < r.bottom)

/-- Map a function over a list together with the position of each element,
starting the position count at `i`. -/
def mapIdxFrom (f : Nat → α → β) : Nat → List α → List β
  | _, [] => []
  | i, a :: as => f i a :: mapIdxFrom f (i + 1) as

/-- `SkBitmap`: a pixel buffer, stored as a list of rows of pixels. -/
structure SkBitmap where
  rows : List (List Pixel)
deriving DecidableEq

/-- The pixel at column `x` of row `y`, when the buffer has such a position. -/
def SkBitmap.pixel? (b : SkBitmap) (x y : Nat) : Option Pixel :=
  b.rows[y]?.bind fun row => row[x]?

/-- `SkBitmap::erase c r`: set every pixel inside `r` to the color `c`
(clipped to the buffer's bounds, as positions outside do not exist). -/
def SkBitmap.erase (b : SkBitmap) (c : Pixel) (r : SkIRect) : SkBitmap :=
  ⟨mapIdxFrom (fun y row => mapIdxFrom (fun x p => if r.containsPt x y then c else p) 0 row)
    0 b.rows⟩

/-- `dst.writePixels src`: copy `src`'s pixels over `dst` at the positions
both buffers share, keeping `dst`'s pixel where `src` has none. -/
def SkBitmap.writePixels (dst src : SkBitmap) : SkBitmap :=
  ⟨mapIdxFrom (fun y row => mapIdxFrom (fun x p => (src.pixel? x y).getD p) 0 row) 0 dst.rows⟩

/-- `SkCodecAnimation::DisposalMethod`, together with the spec's
"unspecified" case for any method outside the three named ones. -/
inductive DisposalMethod where
  | kKeep
  | kRestoreBGColor
  | kRestorePrevious
  | kUnspecified
deriving DecidableEq

/-- `SkCodec::kNoFrame`, the sentinel meaning "no required predecessor". -/
def kNoFrame : Int := -1

/-- `ImageGenerator::FrameInfo`: per-frame metadata reported by the source. -/
structure FrameInfo where
  required_frame : Option Nat
  duration : Nat
  disposal_method : DisposalMethod
  disposal_rect : SkIRect
deriving DecidableEq

/-- `ImageGenerator::kInfinitePlayCount` (the maximal unsigned long). -/
def kInfinitePlayCount : Nat := 2 ^ 64 - 1

/-- Modelled from the spec: the external `ImageGenerator` ("frame source")
collaborator, whose header is not part of this repository.  Per §6 it exposes
the frame count, the play count (with an infinite sentinel), per-frame
metadata, and a decode call that fills a prepared pixel buffer and can fail;
`blank` is the zero-initialized buffer a successful allocation of the
generator's declared dimensions produces, and `minByteSize` its
`computeMinByteSize` used in the allocation failure message. -/
structure ImageGenerator where
  frameCount : Nat
  playCount : Nat
  frameInfo : Nat → FrameInfo
  blank : SkBitmap
  minByteSize : Nat
  getPixels : Nat → Int → SkBitmap → Option SkBitmap

/-- `frameInfo.required_frame.value_or(SkCodec::kNoFrame)`. -/
def requiredIndexOf (fi : FrameInfo) : Int :=
  match fi.required_frame with
  | some i => (i : Int)
  | none => kNoFrame

/-- The mutable, decode-thread-owned fields of `MultiFrameCodec::State`. -/
structure CompositorState where
  nextFrameIndex : Nat
  lastRequiredFrame : Option SkBitmap
  restoreBGColorRect : Option SkIRect
deriving DecidableEq

/-- The whole `MultiFrameCodec::State`: the construction-time constants
`frameCount_` and `repetitionCount_` plus the mutable compositor fields. -/
structure State where
  frameCount : Nat
  repetitionCount : Int
  comp : CompositorState
deriving DecidableEq

/-- `MultiFrameCodec::State::State(generator)`: caches the frame count and
derives the repetition count (`-1` for the infinite sentinel, otherwise the
play count minus one), starting the cursor at frame 0 with no retained frame
and no pending erase rectangle. -/
def State.construct (g : ImageGenerator) : State where
  frameCount := g.frameCount
  repetitionCount :=
    if g.playCount = kInfinitePlayCount then -1 else (g.playCount : Int) - 1
  comp := { nextFrameIndex := 0, lastRequiredFrame := none, restoreBGColorRect := none }

/-- `MultiFrameCodec::repetitionCount()`: reads `state_->repetitionCount_`. -/
def repetitionCountGetter (s : State) : Int := s.repetitionCount

/-- `MultiFrameCodec::frameCount()`: reads `state_->frameCount_`. -/
def frameCountGetter (s : State) : Nat := s.frameCount

/-- The preparation of the freshly allocated output buffer in
`State::DecodeImage` (lines 95-112): when the frame declares a required
predecessor, either leave the blank slate (no retained frame) or copy the
retained frame's pixels in and then clear the pending erase rectangle to
transparent; otherwise the blank buffer is used as is. -/
def prepareBuffer (bitmap : SkBitmap) (requiredFrameIndex : Int)
    (lastRequiredFrame : Option SkBitmap) (restoreBGColorRect : Option SkIRect) : SkBitmap :=
  if requiredFrameIndex ≠ kNoFrame then
    match lastRequiredFrame with
    | none => bitmap
    | some prev =>
      let b := bitmap.writePixels prev
      match restoreBGColorRect with
      | some r => b.erase SK_ColorTRANSPARENT r
      | none => b
  else bitmap

/-- The outcome of one `State::DecodeImage` call: the decoded bitmap (or
`none` on failure), the error string handed to the callback, and the values
of `lastRequiredFrame_` and `restoreBGColorRect_` after the call. -/
structure DecodeOutcome where
  bitmap : Option SkBitmap
  decodeError : String
  lastRequiredFrame : Option SkBitmap
  restoreBGColorRect : Option SkIRect
deriving DecidableEq

/-- `MultiFrameCodec::State::DecodeImage`: allocate the output buffer
(`allocOk` is the outcome of `tryAllocPixels`), prepare it from the retained
frame per the required-predecessor rule, decode via `GetPixels`, and on
success update `lastRequiredFrame_` per the disposal method and recompute
`restoreBGColorRect_`; either failure returns early with an error message and
the state fields untouched. -/
def DecodeImage (g : ImageGenerator) (allocOk : Bool) (s : CompositorState) : DecodeOutcome :=
  if !allocOk then
    { bitmap := none
      decodeError :=
        "Failed to allocate memory for bitmap of size " ++ toString g.minByteSize ++ "B"
      lastRequiredFrame := s.lastRequiredFrame
      restoreBGColorRect := s.restoreBGColorRect }
  else
    let frameInfo := g.frameInfo s.nextFrameIndex
    let requiredFrameIndex := requiredIndexOf frameInfo
    let bitmap :=
      prepareBuffer g.blank requiredFrameIndex s.lastRequiredFrame s.restoreBGColorRect
    match g.getPixels s.nextFrameIndex requiredFrameIndex bitmap with
    | none =>
      { bitmap := none
        decodeError := "Could not getPixels for frame " ++ toString s.nextFrameIndex
        lastRequiredFrame := s.lastRequiredFrame
        restoreBGColorRect := s.restoreBGColorRect }
    | some decoded =>
      { bitmap := some decoded
        decodeError := ""
        lastRequiredFrame :=
          if frameInfo.disposal_method = DisposalMethod.kKeep ∨
              (s.lastRequiredFrame.isSome = true ∧
                ¬frameInfo.disposal_method = DisposalMethod.kRestorePrevious) then
            some decoded
          else
            s.lastRequiredFrame
        restoreBGColorRect :=
          if frameInfo.disposal_method = DisposalMethod.kRestoreBGColor then
            some frameInfo.disposal_rect
          else
            none }

/-- An opaque renderable image handle (`sk_sp<DlImage>`). -/
abbrev DlImage := Nat

/-- A `CanvasImage` wrapping a `DlImage` (`image->set_image(dl_image)`). -/
structure CanvasImage where
  dlImage : DlImage
deriving DecidableEq

/-- What reaches the caller for one request: either the next-frame callback
is invoked with `(image, duration, decode_error)`, or — when the codec state
was gone by the time the decode thread ran — the callback is only cleared. -/
inductive Completion where
  | invoked (image : Option CanvasImage) (duration : Nat) (decodeError : String)
  | cleared
deriving DecidableEq

/-- `MultiFrameCodec::State::OnGetImageAndInvokeCallback`: wrap a non-null
`DlImage` in a `CanvasImage` and look up the processed frame's duration
(0 when there is no image), advance `nextFrameIndex_` modulo `frameCount_`,
and post the callback invocation to the UI thread. -/
def OnGetImageAndInvokeCallback (g : ImageGenerator) (dlImage : Option DlImage)
    (decodeError : String) (st : State) : State × Completion :=
  let image : Option CanvasImage := dlImage.map (fun d => ⟨d⟩)
  let duration : Nat :=
    match dlImage with
    | some _ => (g.frameInfo st.comp.nextFrameIndex).duration
    | none => 0
  ({ st with
      comp := { st.comp with nextFrameIndex := (st.comp.nextFrameIndex + 1) % st.frameCount } },
    Completion.invoked image duration decodeError)

/-- The per-request environment: whether the Dart argument was a closure,
whether the weak pointer to the codec state can still be locked when the IO
thread picks the request up, whether `tryAllocPixels` succeeds, and the
external materializer `State::GetNextFrameImage` as an oracle from the
decoded bitmap to `(DlImage or null, error)`. -/
structure RequestEnv where
  callbackIsClosure : Bool
  stateAlive : Bool
  allocOk : Bool
  materialize : SkBitmap → Option DlImage × String

/-- `MultiFrameCodec::State::GetNextFrameAndInvokeCallback`: run
`DecodeImage`; when it produced a bitmap, materialize it (the materializer's
error string replaces the decode error), and in every case finish through
`OnGetImageAndInvokeCallback`. -/
def GetNextFrameAndInvokeCallback (g : ImageGenerator) (env : RequestEnv) (st : State) :
    State × Completion :=
  let o := DecodeImage g env.allocOk st.comp
  let st1 : State :=
    { st with
        comp := { st.comp with
          lastRequiredFrame := o.lastRequiredFrame
          restoreBGColorRect := o.restoreBGColorRect } }
  match o.bitmap with
  | none => OnGetImageAndInvokeCallback g none o.decodeError st1
  | some bmp =>
    let m := env.materialize bmp
    OnGetImageAndInvokeCallback g m.1 m.2 st1

/-- The observable outcome of one `MultiFrameCodec::getNextFrame` call: the
synchronous Dart return value (`some msg` for a non-null error handle, `none`
for `Dart_Null`), the state after all posted work ran, the completion
delivered to the UI thread (if any work was posted), and whether a decode was
attempted. -/
structure RequestOutcome where
  syncReturn : Option String
  state : State
  completion : Option Completion
  decodeAttempted : Bool
deriving DecidableEq

/-- `MultiFrameCodec::getNextFrame`: reject a non-closure argument
synchronously; complete a zero-frame codec immediately with an error; short
circuit to clearing the callback when the weak state pointer is dead by the
time the IO thread runs; otherwise run the decode pipeline. -/
def getNextFrame (g : ImageGenerator) (env : RequestEnv) (st : State) : RequestOutcome :=
  if !env.callbackIsClosure then
    { syncReturn := some "Callback must be a function"
      state := st
      completion := none
      decodeAttempted := false }
  else if st.frameCount = 0 then
    { syncReturn := none
      state := st
      completion := some (Completion.invoked none 0 "Could not provide any frame.")
      decodeAttempted := false }
  else if !env.stateAlive then
    { syncReturn := none
      state := st
      completion := some Completion.cleared
      decodeAttempted := false }
  else
    let r := GetNextFrameAndInvokeCallback g env st
    { syncReturn := none
      state := r.1
      completion := some r.2
      decodeAttempted := true }

/-- Run a sequence of `getNextFrame` requests, threading the state. -/
def runRequests (g : ImageGenerator) (envs : List RequestEnv) (st : State) : State :=
  match envs with
  | [] => st
  | e :: rest => runRequests g rest (getNextFrame g e st).state

/-- The compositor states reachable from a freshly constructed codec by some
sequence of frame requests. -/
def ReachableComp (g : ImageGenerator) (c : CompositorState) : Prop :=
  ∃ envs : List RequestEnv, (runRequests g envs (State.construct g)).comp = c

/-- A request environment where nothing goes wrong: a closure callback, a
live codec state, a successful allocation, and a materializer that always
produces a handle. -/
def envOk : RequestEnv where
  callbackIsClosure := true
  stateAlive := true
  allocOk := true
  materialize := fun _ => (some 0, "")

/-- An environment whose buffer allocation fails. -/
def envNoAlloc : RequestEnv := { envOk with allocOk := false }

/-- An environment where the codec handle is gone when the IO thread runs. -/
def envDead : RequestEnv := { envOk with stateAlive := false }

/-- An environment whose callback argument is not a closure. -/
def envNotClosure : RequestEnv := { envOk with callbackIsClosure := false }

/-- A one-frame generator whose single frame has disposal `kKeep`, no
required predecessor, and a decode that leaves the prepared buffer as is. -/
def genBase : ImageGenerator where
  frameCount := 1
  playCount := 1
  frameInfo := fun _ =>
    { required_frame := none
      duration := 10
      disposal_method := DisposalMethod.kKeep
      disposal_rect := ⟨0, 0, 1, 1⟩ }
  blank := ⟨[[0, 0], [0, 0]]⟩
  minByteSize := 16
  getPixels := fun _ _ b => some b

/-- `genBase` with its frame's disposal method `kRestorePrevious`. -/
def genRestorePrev : ImageGenerator :=
  { genBase with
      frameInfo := fun _ =>
        { required_frame := none
          duration := 10
          disposal_method := DisposalMethod.kRestorePrevious
          disposal_rect := ⟨0, 0, 1, 1⟩ } }

/-- `genBase` with its frame's disposal method `kRestoreBGColor`. -/
def genRestoreBG : ImageGenerator :=
  { genBase with
      frameInfo := fun _ =>
        { required_frame := none
          duration := 10
          disposal_method := DisposalMethod.kRestoreBGColor
          disposal_rect := ⟨0, 0, 1, 1⟩ } }

/-- `genBase` with its frame declaring frame 0 as required predecessor. -/
def genDependent : ImageGenerator :=
  { genBase with
      frameInfo := fun _ =>
        { required_frame := some 0
          duration := 10
          disposal_method := DisposalMethod.kKeep
          disposal_rect := ⟨0, 0, 1, 1⟩ } }

/-- `genBase` with two frames. -/
def genTwoFrames : ImageGenerator := { genBase with frameCount := 2 }

/-- `genBase` with zero frames. -/
def genZeroFrames : ImageGenerator := { genBase with frameCount := 0 }

/-- `genBase` with a play count of 3. -/
def genPlay3 : ImageGenerator := { genBase with playCount := 3 }

/-- `genBase` reporting the infinite play count. -/
def genPlayInf : ImageGenerator := { genBase with playCount := kInfinitePlayCount }

/-- The compositor state of a freshly constructed codec. -/
def compInit : CompositorState where
  nextFrameIndex := 0
  lastRequiredFrame := none
  restoreBGColorRect := none

/-! ### Supporting lemmas -/

/-- Indexed map looks up like the underlying list, with the offset added. -/
theorem mapIdxFrom_getElem? (f : Nat → α → β) (i : Nat) (l : List α) (n : Nat) :
    (mapIdxFrom f i l)[n]? = (l[n]?).map (f (i + n)) := by
  induction l generalizing i n with
  | nil => simp [mapIdxFrom]
  | cons a as ih =>
    cases n with
    | zero => simp [mapIdxFrom]
    | succ m =>
      simp only [mapIdxFrom, List.getElem?_cons_succ, ih (i + 1) m]
      ring_nf

/-- Pixel-level semantics of `SkBitmap.erase`: pixels inside the rectangle
become the fill color, others are unchanged, and the buffer's extent is
preserved. -/
theorem SkBitmap.pixel?_erase (b : SkBitmap) (c : Pixel) (r : SkIRect) (x y : Nat) :
    (b.erase c r).pixel? x y =
      (b.pixel? x y).map fun p => if r.containsPt x y then c else p := by
  unfold SkBitmap.erase SkBitmap.pixel?
  cases h : b.rows[y]? with
  | none => simp [mapIdxFrom_getElem?, h]
  | some row => simp [mapIdxFrom_getElem?, h]

/-- Pixel-level semantics of `SkBitmap.writePixels`: wherever the source has
a pixel it replaces the destination's, and the destination's extent is
preserved. -/
theorem SkBitmap.pixel?_writePixels (dst src : SkBitmap) (x y : Nat) :
    (dst.writePixels src).pixel? x y =
      (dst.pixel? x y).map fun p => (src.pixel? x y).getD p := by
  unfold SkBitmap.writePixels SkBitmap.pixel?
  cases h : dst.rows[y]? with
  | none => simp [mapIdxFrom_getElem?, h]
  | some row => simp [mapIdxFrom_getElem?, h]

/-- The allocation-failure message is never the empty string. -/
theorem allocError_ne_empty (n : Nat) :
    ("Failed to allocate memory for bitmap of size " ++ toString n ++ "B") ≠ "" := by
  intro h
  have hd : (("Failed to allocate memory for bitmap of size " ++ toString n ++ "B")).data
      = ("" : String).data := by rw [h]
  simp [String.data_append] at hd

/-- The `GetPixels`-failure message is never the empty string. -/
theorem getPixelsError_ne_empty (n : Nat) :
    ("Could not getPixels for frame " ++ toString n) ≠ "" := by
  intro h
  have hd : (("Could not getPixels for frame " ++ toString n)).data = ("" : String).data := by
    rw [h]
  simp [String.data_append] at hd

/-- With no retained frame, buffer preparation leaves the blank slate. -/
theorem prepareBuffer_none (bitmap : SkBitmap) (req : Int) (rect : Option SkIRect) :
    prepareBuffer bitmap req none rect = bitmap := by
  unfold prepareBuffer
  split <;> rfl

/-! ### Claim theorems -/

/-- C1: the claim states that when a frame's disposal method is
RestorePrevious and no retained frame exists yet, the compositor falls back
to Keep semantics, so that after a successful decode the retained frame
equals that frame's composited output.  The code's own comment (lines
137-141) promises exactly this fallback, but the store condition
`keep_current_frame || (previous_frame_available && !restore_previous_frame)`
is false in that case: evaluating `DecodeImage` on a first frame whose
disposal method is `kRestorePrevious` with no retained frame, the decode
succeeds yet `lastRequiredFrame_` stays unset instead of holding the frame's
output. -/
theorem C1_restorePreviousFirstFrame_notRetained :
    (DecodeImage genRestorePrev true compInit).bitmap = some genRestorePrev.blank ∧
    (DecodeImage genRestorePrev true compInit).lastRequiredFrame = none :=
  ⟨rfl, rfl⟩

/-- C2: after every successful raw decode the retained frame is overwritten
with the just-composited frame exactly when the disposal method is Keep, or
when a retained frame already exists and the method is not RestorePrevious;
in particular RestorePrevious with an existing retained frame leaves the
retained frame unchanged. -/
theorem C2_retainedFrameUpdate (g : ImageGenerator) (allocOk : Bool) (s : CompositorState)
    (b : SkBitmap) (h : (DecodeImage g allocOk s).bitmap = some b) :
    (DecodeImage g allocOk s).lastRequiredFrame =
      (if (g.frameInfo s.nextFrameIndex).disposal_method = DisposalMethod.kKeep ∨
          (s.lastRequiredFrame.isSome = true ∧
            ¬(g.frameInfo s.nextFrameIndex).disposal_method = DisposalMethod.kRestorePrevious)
        then some b else s.lastRequiredFrame) ∧
    ((g.frameInfo s.nextFrameIndex).disposal_method = DisposalMethod.kRestorePrevious →
      s.lastRequiredFrame.isSome = true →
      (DecodeImage g allocOk s).lastRequiredFrame = s.lastRequiredFrame) := by
  have hmain : (DecodeImage g allocOk s).lastRequiredFrame =
      (if (g.frameInfo s.nextFrameIndex).disposal_method = DisposalMethod.kKeep ∨
          (s.lastRequiredFrame.isSome = true ∧
            ¬(g.frameInfo s.nextFrameIndex).disposal_method = DisposalMethod.kRestorePrevious)
        then some b else s.lastRequiredFrame) := by
    cases allocOk with
    | false => simp [DecodeImage] at h
    | true =>
      unfold DecodeImage at h ⊢
      simp only [Bool.not_true, Bool.false_eq_true, if_false] at h ⊢
      cases hG : g.getPixels s.nextFrameIndex (requiredIndexOf (g.frameInfo s.nextFrameIndex))
          (prepareBuffer g.blank (requiredIndexOf (g.frameInfo s.nextFrameIndex))
            s.lastRequiredFrame s.restoreBGColorRect) with
      | none =>
        rw [hG] at h
        simp at h
      | some d =>
        rw [hG] at h
        have hdb : d = b := Option.some.inj h
        subst hdb
        rfl
  refine ⟨hmain, fun hrp hprev => ?_⟩
  rw [hmain, if_neg]
  simp [hrp]

/-- C3: when the frame to decode declares a required predecessor, the
prepared output buffer is, pixel for pixel, a copy of the retained frame
with the pending erase rectangle (if any) cleared to fully transparent after
the copy; when no retained frame exists the buffer is left as the blank
slate, and the decode proceeds (the request does not fail for that
reason). -/
theorem C3_dependentFrameBufferPreparation (g : ImageGenerator) (s : CompositorState) (k : Nat)
    (hreq : (g.frameInfo s.nextFrameIndex).required_frame = some k) :
    (∀ prev, s.lastRequiredFrame = some prev → ∀ x y,
      (prepareBuffer g.blank (requiredIndexOf (g.frameInfo s.nextFrameIndex))
          s.lastRequiredFrame s.restoreBGColorRect).pixel? x y =
        (g.blank.pixel? x y).map fun p =>
          match s.restoreBGColorRect with
          | some r =>
            if r.containsPt x y then SK_ColorTRANSPARENT else (prev.pixel? x y).getD p
          | none => (prev.pixel? x y).getD p) ∧
    (s.lastRequiredFrame = none →
      prepareBuffer g.blank (requiredIndexOf (g.frameInfo s.nextFrameIndex))
          s.lastRequiredFrame s.restoreBGColorRect = g.blank) ∧
    (s.lastRequiredFrame = none → ∀ d,
      g.getPixels s.nextFrameIndex (requiredIndexOf (g.frameInfo s.nextFrameIndex)) g.blank
          = some d →
      (DecodeImage g true s).bitmap = some d) := by
  have hk : requiredIndexOf (g.frameInfo s.nextFrameIndex) = (k : Int) := by
    simp [requiredIndexOf, hreq]
  have hne : requiredIndexOf (g.frameInfo s.nextFrameIndex) ≠ kNoFrame := by
    rw [hk]
    simp only [kNoFrame]
    omega
  refine ⟨?_, ?_, ?_⟩
  · intro prev hprev x y
    unfold prepareBuffer
    rw [if_pos hne, hprev]
    cases hrect : s.restoreBGColorRect with
    | none =>
      simp only [SkBitmap.pixel?_writePixels]
    | some r =>
      simp only [SkBitmap.pixel?_erase, SkBitmap.pixel?_writePixels, Option.map_map]
      cases hb : g.blank.pixel? x y <;> simp
  · intro hnone
    rw [hnone]
    exact prepareBuffer_none g.blank _ s.restoreBGColorRect
  · intro hnone d hd
    unfold DecodeImage
    simp only [Bool.not_true, Bool.false_eq_true, if_false]
    rw [hnone, prepareBuffer_none, hd]

/-- Witness for C2: a concrete Keep-disposed frame decodes successfully and
becomes the retained frame. -/
theorem C2_witness :
    (DecodeImage genBase true compInit).lastRequiredFrame = some genBase.blank := by
  have h := C2_retainedFrameUpdate genBase true compInit genBase.blank rfl
  rw [h.1]
  decide

/-- Witness for C3: a concrete frame depending on frame 0, decoded from the
initial state (no retained frame), gets the blank slate and still decodes
successfully. -/
theorem C3_witness :
    prepareBuffer genDependent.blank
        (requiredIndexOf (genDependent.frameInfo compInit.nextFrameIndex))
        compInit.lastRequiredFrame compInit.restoreBGColorRect = genDependent.blank ∧
    (DecodeImage genDependent true compInit).bitmap = some genDependent.blank := by
  have h := C3_dependentFrameBufferPreparation genDependent compInit 0 rfl
  exact ⟨h.2.1 rfl, h.2.2 rfl genDependent.blank rfl⟩

/-- Each request leaves the construction-time constants of the codec state
(`frameCount_`, `repetitionCount_`) unchanged. -/
theorem getNextFrame_const_fields (g : ImageGenerator) (env : RequestEnv) (st : State) :
    (getNextFrame g env st).state.frameCount = st.frameCount ∧
    (getNextFrame g env st).state.repetitionCount = st.repetitionCount := by
  unfold getNextFrame GetNextFrameAndInvokeCallback
  cases hcb : env.callbackIsClosure with
  | false => simp
  | true =>
    by_cases hfc : st.frameCount = 0
    · simp [hfc]
    · cases hal : env.stateAlive with
      | false => simp [hfc]
      | true =>
        simp only [hfc, Bool.not_true, Bool.false_eq_true, if_false, if_neg]
        cases hB : (DecodeImage g env.allocOk st.comp).bitmap <;>
          simp [OnGetImageAndInvokeCallback, hB]

/-- A completed decode attempt advances the cursor by one modulo the frame
count, whether the decode and materialization succeeded or failed. -/
theorem getNextFrame_advances (g : ImageGenerator) (env : RequestEnv) (st : State)
    (hc : env.callbackIsClosure = true) (ha : env.stateAlive = true)
    (hfc : st.frameCount ≠ 0) :
    (getNextFrame g env st).state.comp.nextFrameIndex =
      (st.comp.nextFrameIndex + 1) % st.frameCount := by
  unfold getNextFrame GetNextFrameAndInvokeCallback
  simp only [hc, ha, hfc, Bool.not_true, Bool.false_eq_true, if_false, if_neg]
  cases hB : (DecodeImage g env.allocOk st.comp).bitmap <;>
    simp [OnGetImageAndInvokeCallback, hB]

/-- Over a sequence of completed requests the cursor advances by the number
of requests, modulo the frame count, and the frame count is preserved. -/
theorem runRequests_nextFrameIndex (g : ImageGenerator) (envs : List RequestEnv) (st : State)
    (hall : ∀ e ∈ envs, e.callbackIsClosure = true ∧ e.stateAlive = true)
    (hfc : 0 < st.frameCount) (hidx : st.comp.nextFrameIndex < st.frameCount) :
    (runRequests g envs st).comp.nextFrameIndex =
      (st.comp.nextFrameIndex + envs.length) % st.frameCount ∧
    (runRequests g envs st).frameCount = st.frameCount := by
  induction envs generalizing st with
  | nil =>
    refine ⟨?_, rfl⟩
    simp only [runRequests, List.length_nil, Nat.add_zero]
    exact (Nat.mod_eq_of_lt hidx).symm
  | cons e rest ih =>
    have he := hall e (List.mem_cons_self e rest)
    have hrest : ∀ x ∈ rest, x.callbackIsClosure = true ∧ x.stateAlive = true :=
      fun x hx => hall x (List.mem_cons_of_mem e hx)
    have hconst := getNextFrame_const_fields g e st
    have hstep := getNextFrame_advances g e st he.1 he.2 (Nat.pos_iff_ne_zero.mp hfc)
    have hfc1 : 0 < (getNextFrame g e st).state.frameCount := by rw [hconst.1]; exact hfc
    have hidx1 : (getNextFrame g e st).state.comp.nextFrameIndex <
        (getNextFrame g e st).state.frameCount := by
      rw [hconst.1, hstep]
      exact Nat.mod_lt _ hfc
    have hih := ih (getNextFrame g e st).state hrest hfc1 hidx1
    refine ⟨?_, ?_⟩
    · rw [runRequests, hih.1, hconst.1, hstep, Nat.mod_add_mod, List.length_cons]
      have harith : st.comp.nextFrameIndex + 1 + rest.length =
          st.comp.nextFrameIndex + (rest.length + 1) := by omega
      rw [harith]
    · rw [runRequests, hih.2, hconst.1]

/-- C4: for every completed frame request on an instance with a positive
frame count, the cursor becomes `(nextFrameIndex + 1) mod frameCount`
whether the attempt succeeded or failed, and a sequence of such requests
starting from a fresh codec visits indices `0, 1, ..., frameCount - 1, 0,
...`: after `n` requests the cursor is `n mod frameCount`. -/
theorem C4_cursorAdvancesModFrameCount (g : ImageGenerator) (env : RequestEnv) (st : State)
    (envs : List RequestEnv) (hc : env.callbackIsClosure = true) (ha : env.stateAlive = true)
    (hfc : st.frameCount ≠ 0) (hgfc : 0 < g.frameCount)
    (hall : ∀ e ∈ envs, e.callbackIsClosure = true ∧ e.stateAlive = true) :
    (getNextFrame g env st).state.comp.nextFrameIndex =
      (st.comp.nextFrameIndex + 1) % st.frameCount ∧
    (runRequests g envs (State.construct g)).comp.nextFrameIndex =
      envs.length % g.frameCount := by
  refine ⟨getNextFrame_advances g env st hc ha hfc, ?_⟩
  have h := runRequests_nextFrameIndex g envs (State.construct g) hall hgfc hgfc
  simpa [State.construct] using h.1

/-- Witness for C4: on a concrete two-frame codec, one request moves the
cursor from 0 to 1, and three requests from a fresh codec leave it at
`3 mod 2 = 1`. -/
theorem C4_witness :
    (getNextFrame genTwoFrames envOk (State.construct genTwoFrames)).state.comp.nextFrameIndex
        = 1 ∧
    (runRequests genTwoFrames [envOk, envOk, envOk]
        (State.construct genTwoFrames)).comp.nextFrameIndex = 1 := by
  have h := C4_cursorAdvancesModFrameCount genTwoFrames envOk (State.construct genTwoFrames)
    [envOk, envOk, envOk] rfl rfl (by decide) (by decide) ?_
  · simpa [State.construct] using h
  · intro e he
    simp only [List.mem_cons, List.not_mem_nil, or_false] at he
    rcases he with rfl | rfl | rfl <;> exact ⟨rfl, rfl⟩

/-- C5 (counterexample): the claim that in every reachable state a set
`pendingEraseRect` implies a retained frame exists is false: a first frame
whose disposal method is RestoreBackgroundColor sets `restoreBGColorRect_`
while `lastRequiredFrame_` stays unset (the store condition needs Keep or an
already-present retained frame), so the state reached by one successful
request has the rectangle set and no retained frame. -/
theorem C5_counterexample :
    ReachableComp genRestoreBG
      { nextFrameIndex := 0
        lastRequiredFrame := none
        restoreBGColorRect := some ⟨0, 0, 1, 1⟩ } ∧
    ¬(∀ c, ReachableComp genRestoreBG c →
        c.restoreBGColorRect.isSome = true → c.lastRequiredFrame.isSome = true) := by
  have hre : ReachableComp genRestoreBG
      { nextFrameIndex := 0
        lastRequiredFrame := none
        restoreBGColorRect := some ⟨0, 0, 1, 1⟩ } := ⟨[envOk], rfl⟩
  refine ⟨hre, fun hall => ?_⟩
  have h := hall _ hre rfl
  simp at h

/-- C5 (amended): `pendingEraseRect` can be set while no retained frame
exists (a RestoreBackgroundColor frame sets it unconditionally), but it only
matters when a retained frame exists to erase into: with no retained frame
the decode outcome — produced bitmap, error, retained-frame update, and
(after a successful decode) the recomputed erase rectangle — is independent
of the pending erase rectangle. -/
theorem C5_amended_eraseRectInertWithoutRetainedFrame (g : ImageGenerator) (allocOk : Bool)
    (s : CompositorState) (r1 r2 : Option SkIRect) (h : s.lastRequiredFrame = none) :
    (DecodeImage g allocOk { s with restoreBGColorRect := r1 }).bitmap =
      (DecodeImage g allocOk { s with restoreBGColorRect := r2 }).bitmap ∧
    (DecodeImage g allocOk { s with restoreBGColorRect := r1 }).decodeError =
      (DecodeImage g allocOk { s with restoreBGColorRect := r2 }).decodeError ∧
    (DecodeImage g allocOk { s with restoreBGColorRect := r1 }).lastRequiredFrame =
      (DecodeImage g allocOk { s with restoreBGColorRect := r2 }).lastRequiredFrame ∧
    ((DecodeImage g allocOk { s with restoreBGColorRect := r1 }).bitmap.isSome = true →
      (DecodeImage g allocOk { s with restoreBGColorRect := r1 }).restoreBGColorRect =
        (DecodeImage g allocOk { s with restoreBGColorRect := r2 }).restoreBGColorRect) := by
  cases allocOk with
  | false =>
    refine ⟨rfl, rfl, rfl, fun hb => ?_⟩
    simp [DecodeImage] at hb
  | true =>
    unfold DecodeImage
    simp only [Bool.not_true, Bool.false_eq_true, if_false, h, prepareBuffer_none]
    cases hG : g.getPixels s.nextFrameIndex (requiredIndexOf (g.frameInfo s.nextFrameIndex))
        g.blank with
    | none => exact ⟨rfl, rfl, rfl, fun hb => by simp at hb⟩
    | some d => exact ⟨rfl, rfl, rfl, fun hb => rfl⟩

/-- Witness for C5 (amended): from the initial state (no retained frame), a
concrete dependent frame decodes to the same bitmap whether or not a pending
erase rectangle is set. -/
theorem C5_amended_witness :
    (DecodeImage genDependent true
        { compInit with restoreBGColorRect := some ⟨0, 0, 1, 1⟩ }).bitmap =
      (DecodeImage genDependent true { compInit with restoreBGColorRect := none }).bitmap :=
  (C5_amended_eraseRectInertWithoutRetainedFrame genDependent true compInit
    (some ⟨0, 0, 1, 1⟩) none rfl).1

/-- C6: when buffer allocation fails or `GetPixels` fails, the request
completes with no image, duration 0 and a non-empty error message, and both
the retained frame and the pending erase rectangle are exactly as they were
before the request. -/
theorem C6_failureLeavesCompositorStateUntouched (g : ImageGenerator) (env : RequestEnv)
    (st : State) (hc : env.callbackIsClosure = true) (ha : env.stateAlive = true)
    (hfc : st.frameCount ≠ 0)
    (hfail : env.allocOk = false ∨
      g.getPixels st.comp.nextFrameIndex (requiredIndexOf (g.frameInfo st.comp.nextFrameIndex))
        (prepareBuffer g.blank (requiredIndexOf (g.frameInfo st.comp.nextFrameIndex))
          st.comp.lastRequiredFrame st.comp.restoreBGColorRect) = none) :
    (getNextFrame g env st).completion =
      some (Completion.invoked none 0 (DecodeImage g env.allocOk st.comp).decodeError) ∧
    (DecodeImage g env.allocOk st.comp).decodeError ≠ "" ∧
    (getNextFrame g env st).state.comp.lastRequiredFrame = st.comp.lastRequiredFrame ∧
    (getNextFrame g env st).state.comp.restoreBGColorRect = st.comp.restoreBGColorRect := by
  have key : (DecodeImage g env.allocOk st.comp).bitmap = none ∧
      (DecodeImage g env.allocOk st.comp).decodeError ≠ "" ∧
      (DecodeImage g env.allocOk st.comp).lastRequiredFrame = st.comp.lastRequiredFrame ∧
      (DecodeImage g env.allocOk st.comp).restoreBGColorRect = st.comp.restoreBGColorRect := by
    cases hA : env.allocOk with
    | false => exact ⟨rfl, allocError_ne_empty g.minByteSize, rfl, rfl⟩
    | true =>
      rcases hfail with hfl | hfg
      · exact Bool.noConfusion (hA.symm.trans hfl)
      · unfold DecodeImage
        simp only [Bool.not_true, Bool.false_eq_true, if_false]
        rw [hfg]
        exact ⟨rfl, getPixelsError_ne_empty st.comp.nextFrameIndex, rfl, rfl⟩
  refine ⟨?_, key.2.1, ?_, ?_⟩ <;>
    · unfold getNextFrame GetNextFrameAndInvokeCallback
      simp only [hc, ha, hfc, Bool.not_true, Bool.false_eq_true, if_false, if_neg]
      rw [key.1]
      simp [OnGetImageAndInvokeCallback, key.2.2.1, key.2.2.2]

/-- Witness for C6: a concrete request whose buffer allocation fails leaves
the retained frame absent and reports a non-empty error. -/
theorem C6_witness :
    (getNextFrame genBase envNoAlloc (State.construct genBase)).state.comp.lastRequiredFrame
        = none ∧
    (DecodeImage genBase envNoAlloc.allocOk (State.construct genBase).comp).decodeError ≠ "" := by
  have h := C6_failureLeavesCompositorStateUntouched genBase envNoAlloc
    (State.construct genBase) rfl rfl (by decide) (Or.inl rfl)
  exact ⟨by rw [h.2.2.1]; rfl, h.2.1⟩

/-- A request on a zero-frame codec leaves the state unchanged. -/
theorem getNextFrame_state_zeroFrames (g : ImageGenerator) (env : RequestEnv) (st : State)
    (hfc : st.frameCount = 0) : (getNextFrame g env st).state = st := by
  unfold getNextFrame
  cases hcb : env.callbackIsClosure <;> simp [hfc]

/-- Any sequence of requests on a zero-frame codec leaves the state
unchanged. -/
theorem runRequests_zeroFrames (g : ImageGenerator) (envs : List RequestEnv) (st : State)
    (hfc : st.frameCount = 0) : runRequests g envs st = st := by
  induction envs with
  | nil => rfl
  | cons e rest ih =>
    rw [runRequests, getNextFrame_state_zeroFrames g e st hfc, ih]

/-- C7: with `frameCount == 0` every request returns `Dart_Null`
synchronously and completes with no image, duration 0 and the non-empty
error "Could not provide any frame."; no decode is attempted and the state —
in particular `nextFrameIndex` — never changes, over any sequence of
requests. -/
theorem C7_zeroFrameSource (g : ImageGenerator) (env : RequestEnv) (st : State)
    (hc : env.callbackIsClosure = true) (hfc : st.frameCount = 0) :
    (getNextFrame g env st).syncReturn = none ∧
    (getNextFrame g env st).completion =
      some (Completion.invoked none 0 "Could not provide any frame.") ∧
    ("Could not provide any frame." : String) ≠ "" ∧
    (getNextFrame g env st).decodeAttempted = false ∧
    (getNextFrame g env st).state = st ∧
    ∀ envs : List RequestEnv, runRequests g envs st = st := by
  have hg : getNextFrame g env st =
      { syncReturn := none
        state := st
        completion := some (Completion.invoked none 0 "Could not provide any frame.")
        decodeAttempted := false } := by
    unfold getNextFrame
    simp [hc, hfc]
  exact ⟨by rw [hg], by rw [hg], by decide, by rw [hg], by rw [hg],
    fun envs => runRequests_zeroFrames g envs st hfc⟩

/-- Witness for C7: a concrete zero-frame codec completes with the error
triple and two requests leave the fresh state unchanged. -/
theorem C7_witness :
    (getNextFrame genZeroFrames envOk (State.construct genZeroFrames)).completion =
      some (Completion.invoked none 0 "Could not provide any frame.") ∧
    runRequests genZeroFrames [envOk, envOk] (State.construct genZeroFrames) =
      State.construct genZeroFrames := by
  have h := C7_zeroFrameSource genZeroFrames envOk (State.construct genZeroFrames) rfl rfl
  exact ⟨h.2.1, h.2.2.2.2.2 [envOk, envOk]⟩

/-- The construction-time constants survive any sequence of requests. -/
theorem runRequests_const_fields (g : ImageGenerator) (envs : List RequestEnv) (st : State) :
    (runRequests g envs st).frameCount = st.frameCount ∧
    (runRequests g envs st).repetitionCount = st.repetitionCount := by
  induction envs generalizing st with
  | nil => exact ⟨rfl, rfl⟩
  | cons e rest ih =>
    have hstep := getNextFrame_const_fields g e st
    have h := ih (getNextFrame g e st).state
    exact ⟨by rw [runRequests, h.1, hstep.1], by rw [runRequests, h.2, hstep.2]⟩

/-- C8: `repetitionCount` is `-1` when the source reports the infinite play
count sentinel and `sourcePlayCount - 1` otherwise; it is computed at
construction, never changes across requests, and `repetitionCount()` always
returns it. -/
theorem C8_repetitionCountPolicy (g : ImageGenerator) :
    (g.playCount = kInfinitePlayCount → repetitionCountGetter (State.construct g) = -1) ∧
    (g.playCount ≠ kInfinitePlayCount →
      repetitionCountGetter (State.construct g) = (g.playCount : Int) - 1) ∧
    ∀ envs : List RequestEnv,
      repetitionCountGetter (runRequests g envs (State.construct g)) =
        repetitionCountGetter (State.construct g) := by
  refine ⟨fun h => ?_, fun h => ?_, fun envs => ?_⟩
  · simp [repetitionCountGetter, State.construct, h]
  · simp [repetitionCountGetter, State.construct, h]
  · exact (runRequests_const_fields g envs (State.construct g)).2

/-- Witness for C8: a source play count of 3 reports repetition count 2
(also after a request), and the infinite sentinel reports -1. -/
theorem C8_witness :
    repetitionCountGetter (State.construct genPlay3) = 2 ∧
    repetitionCountGetter (State.construct genPlayInf) = -1 ∧
    repetitionCountGetter (runRequests genPlay3 [envOk] (State.construct genPlay3)) = 2 := by
  have h3 := C8_repetitionCountPolicy genPlay3
  have hi := C8_repetitionCountPolicy genPlayInf
  refine ⟨?_, hi.1 rfl, ?_⟩
  · have h := h3.2.1 (by decide)
    simpa using h
  · rw [h3.2.2 [envOk]]
    have h := h3.2.1 (by decide)
    simpa using h

/-- C9: when the weak pointer to the codec state cannot be locked by the
time the IO thread picks the request up, no decode is started, the state
(retained frame, erase rectangle, cursor) is untouched, and the single
delivered completion is the no-op clearing of the callback on the UI
thread. -/
theorem C9_teardownShortCircuit (g : ImageGenerator) (env : RequestEnv) (st : State)
    (hc : env.callbackIsClosure = true) (hfc : st.frameCount ≠ 0)
    (hdead : env.stateAlive = false) :
    getNextFrame g env st =
      { syncReturn := none
        state := st
        completion := some Completion.cleared
        decodeAttempted := false } := by
  unfold getNextFrame
  simp [hc, hfc, hdead]

/-- Witness for C9: a concrete released handle yields the cleared completion
and an unchanged state. -/
theorem C9_witness :
    getNextFrame genBase envDead (State.construct genBase) =
      { syncReturn := none
        state := State.construct genBase
        completion := some Completion.cleared
        decodeAttempted := false } :=
  C9_teardownShortCircuit genBase envDead (State.construct genBase) rfl (by decide) rfl

/-- C10: a non-closure callback argument makes `getNextFrame` return the
error string "Callback must be a function" synchronously, posting no work,
delivering no completion, attempting no decode, and leaving the state
unchanged. -/
theorem C10_nonClosureCallback (g : ImageGenerator) (env : RequestEnv) (st : State)
    (hc : env.callbackIsClosure = false) :
    getNextFrame g env st =
      { syncReturn := some "Callback must be a function"
        state := st
        completion := none
        decodeAttempted := false } := by
  unfold getNextFrame
  simp [hc]

/-- Witness for C10: a concrete non-closure argument is rejected
synchronously with the state unchanged. -/
theorem C10_witness :
    getNextFrame genBase envNotClosure (State.construct genBase) =
      { syncReturn := some "Callback must be a function"
        state := State.construct genBase
        completion := none
        decodeAttempted := false } :=
  C10_nonClosureCallback genBase envNotClosure (State.construct genBase) rfl

end MultiFrameCodecModel
